import Mathlib

/-!
# Verification of the linear-mcp tool server

A shallow embedding of the repository's tool-dispatch layer
(`src/index.ts`) and of its GitHub helper class (`src/utils/github.ts`,
which ships in two variants), together with proofs settling the frozen
claims about the natural-language specification.

Conventions of the embedding:
* free text (PR bodies, descriptions, urls) is `List Char`, so that the
  JavaScript string operations (`includes`, concatenation, the regex
  scans) become executable functions amenable to induction;
* loosely typed remote objects are either small structures or the
  `Json` inductive below; JavaScript `undefined`/`null` is `Option`/
  `Json.null`;
* remote SDK calls (Linear SDK, Octokit, axios, `JSON.stringify`,
  `Buffer` base64) are external collaborators and are supplied through
  an explicit environment record; each handler returns the list of
  remote calls it issued, in order, so that "performs no remote
  mutation" claims are statements about that trace;
* a JavaScript `throw` is `Except.error` carrying the message string.
-/

abbrev Chars := List Char

/-- JavaScript `String.prototype.includes`: `hay.includes(needle)`. -/
def strIncludes : Chars → Chars → Bool
  | hay, needle =>
    if needle.isPrefixOf hay then true
    else
      match hay with
      | [] => false
      | _ :: t => strIncludes t needle

/-- Number of positions of `hay` at which `needle` occurs (occurrences may
overlap); used to count how many times a marker appears in a PR body. -/
def countSub : Chars → Chars → Nat
  | hay, needle =>
    (if needle.isPrefixOf hay then 1 else 0) +
      match hay with
      | [] => 0
      | _ :: t => countSub t needle

/-- `pr.body?.includes(issueId)` where the body may be `null`. -/
def includesOpt (body : Option Chars) (issueId : Chars) : Bool :=
  match body with
  | none => false
  | some b => strIncludes b issueId

/-- `GitHubClient.linkPullRequestToLinear`, first variant
(`src/utils/github.ts` lines 420-444), acting on the remote PR body:
if the body does not already contain the issue id, the updated body is
`` `${pr.body || ""}\n\nFixes ${params.issueId}` ``; otherwise no update
call is made and the body is left unchanged. -/
def linkBodyV1 (body : Option Chars) (issueId : Chars) : Option Chars :=
  if includesOpt body issueId then body
  else some ((body.getD []) ++ "\n\nFixes ".data ++ issueId)

/-- `GitHubClient.linkPullRequestToLinear`, second variant
(`src/utils/github.ts` lines 539-565), acting on the remote PR body:
the updated body is unconditionally
`` `Fixes ${issueId}\n\n${pr.body || ""}` ``. -/
def linkBodyV2 (body : Option Chars) (issueId : Chars) : Chars :=
  "Fixes ".data ++ issueId ++ "\n\n".data ++ (body.getD [])

theorem strIncludes_append_right (p id : Chars) :
    strIncludes (p ++ id) id = true := by
  induction p with
  | nil =>
    unfold strIncludes
    simp [List.isPrefixOf_iff_prefix]
  | cons c t ih =>
    unfold strIncludes
    by_cases h : id.isPrefixOf (c :: t ++ id)
    · simp [h, ih]
    · simp [h, ih]

theorem includesOpt_append_right (b : Option Chars) (m id : Chars) :
    includesOpt (some (b.getD [] ++ m ++ id)) id = true := by
  exact strIncludes_append_right _ _

/-- Auxiliary: applying the first variant when the body already contains
the issue id leaves the body unchanged. -/
theorem linkBodyV1_of_includes (b : Option Chars) (id : Chars)
    (h : includesOpt b id = true) : linkBodyV1 b id = b := by
  simp [linkBodyV1, h]

/-- Auxiliary: applying the first variant when the body does not contain
the issue id appends the marker once. -/
theorem linkBodyV1_of_not_includes (b : Option Chars) (id : Chars)
    (h : includesOpt b id = false) :
    linkBodyV1 b id = some (b.getD [] ++ "\n\nFixes ".data ++ id) := by
  simp [linkBodyV1, h]

/-! ## The markdown image scanner

`extractAndAnalyzeImages` (`src/index.ts` lines 444-455) runs the global
JavaScript regex `/!\[.*?\]\((.*?)\)/g` over the text and, for each
matched substring, re-extracts the url with `/\((.*?)\)/` and feeds it to
`analyzeImage`.  The functions below implement exactly the JavaScript
semantics of those two regexes: `.` matches anything but a newline
character, `*?` is lazy with backtracking, the global scan resumes after
each match and advances by one character after each failed position. -/

/-- The four characters JavaScript `.` does not match. -/
def isJsNewline (c : Char) : Bool :=
  c = '\n' || c = '\r' || c = Char.ofNat 0x2028 || c = Char.ofNat 0x2029

/-- Lazy scan `(.*?)\)`: the shortest run of non-newline characters up to
the first `)`.  Returns the run and the remainder after the `)`. -/
def scanToClose : Chars → Option (Chars × Chars)
  | [] => none
  | c :: cs =>
    if c = ')' then some ([], cs)
    else if isJsNewline c then none
    else
      match scanToClose cs with
      | some (u, r) => some (c :: u, r)
      | none => none

/-- Prepend one absorbed character to the alt text of a pending match. -/
def consAlt (c : Char) : Option (Chars × Chars × Chars) → Option (Chars × Chars × Chars)
  | some (a, u, r) => some (c :: a, u, r)
  | none => none

/-- Matching `.*?\]\((.*?)\)` against `cs` (the text following `![`):
the lazy alt text grows until a `](` is found whose url part closes; on an
inner failure the `](` is absorbed into the alt text (regex
backtracking).  Returns `(alt, url, rest)`. -/
def matchAfterBang : Chars → Option (Chars × Chars × Chars)
  | [] => none
  | c :: cs =>
    if isJsNewline c then none
    else
      match cs with
      | '(' :: cs' =>
        if c = ']' then
          match scanToClose cs' with
          | some (u, r) => some ([], u, r)
          | none => consAlt c (matchAfterBang cs)
        else consAlt c (matchAfterBang cs)
      | _ => consAlt c (matchAfterBang cs)

theorem scanToClose_length :
    ∀ (l u r : Chars), scanToClose l = some (u, r) → r.length < l.length := by
  intro l
  induction l with
  | nil => intro u r h; simp [scanToClose] at h
  | cons c cs ih =>
    intro u r h
    unfold scanToClose at h
    by_cases hc : c = ')'
    · simp [hc] at h
      simp [← h.2]
    · by_cases hn : isJsNewline c
      · simp [hc, hn] at h
      · simp [hc, hn] at h
        rcases hm : scanToClose cs with _ | ⟨u', r'⟩
        · rw [hm] at h; simp at h
        · rw [hm] at h
          simp at h
          obtain ⟨h1, h2⟩ := h
          subst h2
          have := ih u' r' hm
          simp only [List.length_cons]
          omega

theorem consAlt_some (c : Char) (o : Option (Chars × Chars × Chars))
    (a u r : Chars) (h : consAlt c o = some (a, u, r)) :
    ∃ a', o = some (a', u, r) ∧ a = c :: a' := by
  rcases o with _ | ⟨a', u', r'⟩
  · simp [consAlt] at h
  · simp [consAlt] at h
    exact ⟨a', by simp [h.2.1, h.2.2], h.1.symm⟩

theorem matchAfterBang_length :
    ∀ (l a u r : Chars), matchAfterBang l = some (a, u, r) → r.length < l.length := by
  intro l
  induction l with
  | nil => intro a u r h; simp [matchAfterBang] at h
  | cons c cs ih =>
    intro a u r h
    have hcons : consAlt c (matchAfterBang cs) = some (a, u, r) →
        r.length < (c :: cs).length := by
      intro h'
      obtain ⟨a', ho, -⟩ := consAlt_some _ _ _ _ _ h'
      have := ih a' u r ho
      simp only [List.length_cons]
      omega
    unfold matchAfterBang at h
    by_cases hn : isJsNewline c
    · simp [hn] at h
    · simp [hn] at h
      split at h
      · rename_i cs'
        by_cases hc : c = ']'
        · rw [if_pos hc] at h
          rcases hs : scanToClose cs' with _ | ⟨u', r'⟩
          · rw [hs] at h
            exact hcons h
          · rw [hs] at h
            simp at h
            have hl := scanToClose_length cs' u' r' hs
            simp only [List.length_cons]
            rw [← h.2.2]
            omega
        · rw [if_neg hc] at h
          exact hcons h
      · exact hcons h

/-- Worker for the global scan, structurally recursive on a fuel bound;
a scan step consumes at least one character, so any fuel above the text
length is enough (`imageMatchesGo_congr` below). -/
def imageMatchesGo : Nat → Chars → List Chars
  | 0, _ => []
  | _ + 1, [] => []
  | fuel + 1, '!' :: '[' :: cs =>
    match matchAfterBang cs with
    | some (a, u, r) =>
      ('!' :: '[' :: (a ++ ']' :: '(' :: (u ++ [')']))) :: imageMatchesGo fuel r
    | none => imageMatchesGo fuel ('[' :: cs)
  | fuel + 1, _ :: cs => imageMatchesGo fuel cs

/-- All matched substrings of the global regex `/!\[.*?\]\((.*?)\)/g`
over the text, in source order: `text.match(/!\[.*?\]\((.*?)\)/g) || []`.
After a match the scan resumes at the first character past it; after a
failed start position it advances one character. -/
def imageMatches (l : Chars) : List Chars :=
  imageMatchesGo (l.length + 1) l

/-- The fuel bound is irrelevant as long as it exceeds the text length,
so `imageMatches` is the fixpoint of the intended scan. -/
theorem imageMatchesGo_congr :
    ∀ (f g : Nat) (l : Chars), l.length < f → l.length < g →
      imageMatchesGo f l = imageMatchesGo g l := by
  intro f
  induction f with
  | zero => intro g l hf _; omega
  | succ f ih =>
    intro g l hf hg
    rcases g with _ | g
    · omega
    rcases l with _ | ⟨c, cs⟩
    · rfl
    by_cases hshape : ∃ cs', c = '!' ∧ cs = '[' :: cs'
    · obtain ⟨cs', rfl, rfl⟩ := hshape
      rw [imageMatchesGo.eq_3, imageMatchesGo.eq_3]
      simp only [List.length_cons] at hf hg
      rcases hm : matchAfterBang cs' with _ | ⟨a, u, r⟩
      · exact ih g ('[' :: cs') (by simp only [List.length_cons]; omega)
          (by simp only [List.length_cons]; omega)
      · have hr := matchAfterBang_length cs' a u r hm
        show ('!' :: '[' :: (a ++ ']' :: '(' :: (u ++ [')']))) :: imageMatchesGo f r
            = ('!' :: '[' :: (a ++ ']' :: '(' :: (u ++ [')']))) :: imageMatchesGo g r
        rw [ih g r (by omega) (by omega)]
    · have hside : ∀ (cs₁ : List Char), c = '!' → cs = '[' :: cs₁ → False := by
        intro cs₁ hc hcs
        exact hshape ⟨cs₁, hc, hcs⟩
      rw [imageMatchesGo.eq_4 f c cs hside, imageMatchesGo.eq_4 g c cs hside]
      simp only [List.length_cons] at hf hg
      exact ih g cs (by omega) (by omega)

/-- `m.match(/\((.*?)\)/)?.[1] || ""`: the capture group of the first
(leftmost, lazy, with backtracking) parenthesised run in `m`, or the
empty string when there is none. -/
def firstParenGroup : Chars → Option Chars
  | [] => none
  | c :: cs =>
    if c = '(' then
      match scanToClose cs with
      | some (u, _) => some u
      | none => firstParenGroup cs
    else firstParenGroup cs

/-- The url the source extracts from one matched substring. -/
def urlOfMatch (m : Chars) : Chars :=
  (firstParenGroup m).getD []

/-- `extractAndAnalyzeImages` (`src/index.ts` lines 444-455): one
`{url, analysis}` pair per regex match, in source order.  `analyzeImage`
(axios fetch + base64, an external collaborator that never throws) is the
`analyze` parameter. -/
def extractAndAnalyzeImages (analyze : Chars → String) (text : Chars) :
    List (Chars × String) :=
  (imageMatches text).map (fun m => (urlOfMatch m, analyze (urlOfMatch m)))

/-! ## JSON values and remote entities

The handlers build loosely typed JavaScript objects (filter objects,
flattened response payloads).  `Json` models them; object fields keep
their construction order, as JavaScript object literals do.  Scalars of
remote entities that the handlers merely pass through (dates, numbers,
metadata) are modelled as `Json` fields. -/

inductive Json where
  | null
  | bool (b : Bool)
  | num (n : Int)
  | str (s : String)
  | arr (elems : List Json)
  | obj (fields : List (String × Json))

/-- Field lookup in an object value (first binding wins). -/
def jsonLookup (j : Json) (key : String) : Option Json :=
  match j with
  | .obj fields => lookupField fields key
  | _ => none
where
  lookupField : List (String × Json) → String → Option Json
    | [], _ => none
    | (k, v) :: rest, key => if k = key then some v else lookupField rest key

def optStrJson : Option String → Json
  | some s => .str s
  | none => .null

/-- An issue state reference, already resolved (`await issue.state`). -/
structure StateRec where
  name : String

/-- A user reference, already resolved (`await issue.assignee` /
`creator`). -/
structure UserRec where
  id : String
  name : String
  email : Json

structure TeamRefRec where
  id : Json
  name : Json
  key : Json

structure ProjectRefRec where
  id : Json
  name : Json
  state : Json

structure ParentRec where
  id : Json
  title : Json
  identifier : Json

structure CycleRec where
  id : Json
  name : Json
  number : Json

structure LabelRec where
  id : Json
  name : Json
  color : Json

structure CommentRec where
  id : Json
  body : Json
  createdAt : Json

structure AttachmentRec where
  id : Json
  title : Json
  url : Option String
  source : Json
  metadata : Json

/-- A full Linear issue as returned by `linearClient.issue(id)`, with the
reference fields the handler awaits already resolved (JavaScript
`undefined`/`null` references become `none`). -/
structure IssueRec where
  id : String
  identifier : String
  title : String
  description : Option String
  priority : Json
  priorityLabel : Json
  url : String
  createdAt : Json
  updatedAt : Json
  startedAt : Json
  completedAt : Json
  canceledAt : Json
  dueDate : Json
  estimate : Json
  customerTicketCount : Json
  previousIdentifiers : Json
  branchName : Option String
  archivedAt : Json
  autoArchivedAt : Json
  autoClosedAt : Json
  trashed : Json
  state : Option StateRec
  assignee : Option UserRec
  creator : Option UserRec
  team : Option TeamRefRec
  project : Option ProjectRefRec
  parent : Option ParentRec
  cycle : Option CycleRec
  labels : List LabelRec
  comments : List CommentRec
  attachments : List AttachmentRec

/-- A node of `linearClient.issues(...)` / `searchIssues(...)`, with the
`state` and `assignee` references already resolved. -/
structure IssueNode where
  id : String
  title : String
  state : Option StateRec
  assignee : Option UserRec
  priority : Json
  url : String
  metadata : Json

structure TeamNode where
  id : Json
  name : Json
  key : Json
  description : Json

structure TeamIdNode where
  id : Json

/-- A node of `linearClient.projects(...)`; `teams` is the awaited teams
connection (`none` when the connection is `null`). -/
structure ProjectNode where
  id : Json
  name : Json
  description : Json
  state : Json
  teams : Option (List TeamIdNode)

/-- What the handlers use of a pull request returned by the GitHub
client: its number, its body, and the rest of its serialized fields. -/
structure PrRec where
  number : Nat
  body : Option String
  raw : List (String × Json)

/-! ## The tool dispatcher (`src/index.ts`)

`request.params.arguments` is cast loosely in the source, so every field
is optional here; JavaScript truthiness (`!args?.title` is true for a
missing argument and for the empty string) is `truthyS`. -/

structure Args where
  title : Option String := none
  description : Option String := none
  teamId : Option String := none
  assigneeId : Option String := none
  priority : Option Nat := none
  labels : Option (List String) := none
  status : Option String := none
  first : Option Nat := none
  issueId : Option String := none
  query : Option String := none
  owner : Option String := none
  repo : Option String := none
  branch : Option String := none
  fromBranch : Option String := none
  base : Option String := none
  head : Option String := none
  body : Option String := none
  pullNumber : Option Nat := none

structure ToolRequest where
  name : String
  arguments : Args

/-- JavaScript truthiness of an optional string: `undefined` and `""`
are falsy. -/
def truthyS : Option String → Bool
  | none => false
  | some s => s != ""

theorem truthyS_none : truthyS none = false := rfl

theorem truthyS_some (s : String) : truthyS (some s) = (s != "") := rfl

/-- `v || "dev"`. -/
def orDev (v : Option String) : String :=
  if truthyS v then v.getD "" else "dev"

/-- The payload of `issue.update({...})` in the `update_issue` case
(note the source maps the `status` argument onto `stateId`). -/
structure UpdatePayload where
  title : Option String
  description : Option String
  stateId : Option String
  assigneeId : Option String
  priority : Option Nat

/-- One remote SDK call, recorded with the arguments the handler passed.
`Option` fields mirror call sites that can pass `undefined`. -/
inductive RemoteCall where
  | linearCreateIssue (title description teamId assigneeId : Option String)
      (priority : Option Nat) (labelIds : Option (List String))
  | linearIssuesQuery (first : Nat) (filter : Json)
  | linearIssueLookup (issueId : String)
  | linearIssueUpdate (issueId : String) (payload : UpdatePayload)
  | linearTeamsQuery
  | linearSearchQuery (query : String) (first : Nat)
  | linearProjectsQuery (first : Nat) (filter : Json)
  | ghCreateBranch (owner repo branch fromBranch : Option String)
  | ghUpdatePullRequest (owner repo : Option String) (pullNumber : Option Nat)
      (title body : Option String)
  | ghCreatePullRequest (owner repo title body head base : Option String)
  | ghGetPullRequest (owner repo : Option String) (pullNumber : Option Nat)
  | ghLinkPullRequestToLinear (owner repo : Option String)
      (pullNumber : Option Nat) (issueId : Option String)

/-- Is the call one of the GitHub client's feature-PR mutations? -/
def isFeaturePrGithubCall : RemoteCall → Bool
  | .ghCreateBranch _ _ _ _ => true
  | .ghCreatePullRequest _ _ _ _ _ _ => true
  | .ghLinkPullRequestToLinear _ _ _ _ => true
  | _ => false

/-- The external collaborators: the Linear SDK client, the GitHub client
methods the dispatcher calls, `analyzeImage`'s network fetch and
`JSON.stringify`.  Each remote call may throw (`Except.error`). -/
structure Env where
  stringify : Json → String
  analyzeImage : Chars → String
  linearCreateIssue : Option String → Option String → Option String →
    Option String → Option Nat → Option (List String) → Except String Json
  linearIssues : Nat → Json → Except String (List IssueNode)
  linearIssue : String → Except String (Option IssueRec)
  linearUpdateIssue : String → UpdatePayload → Except String Json
  linearTeams : Except String (List TeamNode)
  linearSearchIssues : String → Nat → Except String (List IssueNode)
  linearProjects : Nat → Json → Except String (List ProjectNode)
  ghCreateBranch : Option String → Option String → Option String →
    Option String → Except String Json
  ghUpdatePullRequest : Option String → Option String → Option Nat →
    Option String → Option String → Except String Json
  ghCreatePullRequest : Option String → Option String → Option String →
    Option String → Option String → Option String → Except String PrRec
  ghGetPullRequest : Option String → Option String → Option Nat →
    Except String PrRec
  ghLinkPullRequestToLinear : Option String → Option String → Option Nat →
    Option String → Except String Json

/-- The `list_issues` filter object (`src/index.ts` lines 487-490): one
key per truthy argument, inserted in source order. -/
def listIssuesFilter (a : Args) : Json :=
  Json.obj
    ((if truthyS a.teamId then
        [("team", Json.obj [("id", Json.obj [("eq", Json.str (a.teamId.getD ""))])])]
      else [])
     ++ (if truthyS a.assigneeId then
        [("assignee", Json.obj [("id", Json.obj [("eq", Json.str (a.assigneeId.getD ""))])])]
      else [])
     ++ (if truthyS a.status then
        [("state", Json.obj [("name", Json.obj [("eq", Json.str (a.status.getD ""))])])]
      else []))

/-- The `list_projects` filter object (`src/index.ts` lines 972-973):
the source uses the issue-filter `team` key here. -/
def listProjectsFilter (a : Args) : Json :=
  Json.obj
    (if truthyS a.teamId then
       [("team", Json.obj [("id", Json.obj [("eq", Json.str (a.teamId.getD ""))])])]
     else [])

/-- One flattened issue of the `list_issues` response
(`src/index.ts` lines 497-510). -/
def formatListIssue (i : IssueNode) : Json :=
  Json.obj
    [("id", .str i.id),
     ("title", .str i.title),
     ("status", match i.state with | some s => .str s.name | none => .str "Unknown"),
     ("assignee", match i.assignee with | some a => .str a.name | none => .str "Unassigned"),
     ("priority", i.priority),
     ("url", .str i.url)]

/-- One flattened result of the `search_issues` response
(`src/index.ts` lines 582-596). -/
def formatSearchResult (i : IssueNode) : Json :=
  Json.obj
    [("id", .str i.id),
     ("title", .str i.title),
     ("status", match i.state with | some s => .str s.name | none => .str "Unknown"),
     ("assignee", match i.assignee with | some a => .str a.name | none => .str "Unassigned"),
     ("priority", i.priority),
     ("url", .str i.url),
     ("metadata", i.metadata)]

/-- One flattened team of the `list_teams` response. -/
def formatTeam (t : TeamNode) : Json :=
  Json.obj [("id", t.id), ("name", t.name), ("key", t.key), ("description", t.description)]

/-- One flattened project of the `list_projects` response
(`src/index.ts` lines 980-994). -/
def formatProject (p : ProjectNode) : Json :=
  Json.obj
    [("id", p.id),
     ("name", p.name),
     ("description", p.description),
     ("state", p.state),
     ("teamIds", Json.arr (((p.teams.getD []).map (fun t => t.id))))]

/-- The `{url, analysis}` pairs for a text, as a JSON array. -/
def imagePairsJson (analyze : Chars → String) (text : Chars) : Json :=
  Json.arr ((extractAndAnalyzeImages analyze text).map
    (fun p => Json.obj [("url", .str (String.mk p.1)), ("analysis", .str p.2)]))

/-- `args.body ? await extractAndAnalyzeImages(args.body) : []` and
`extractAndAnalyzeImages(result.body)` where the body may be missing
(`text?.match(...) || []` yields no matches on `undefined`). -/
def imagePairsOfOpt (analyze : Chars → String) (t : Option String) : Json :=
  imagePairsJson analyze ((t.map String.data).getD [])

/-- `{...result, analyzedImages}`. -/
def spreadAnalyzed (raw : List (String × Json)) (analyzed : Json) : Json :=
  Json.obj (raw ++ [("analyzedImages", analyzed)])

/-- `{...result, analyzedImages}` for a result of unknown object shape. -/
def spreadJsonAnalyzed (r : Json) (analyzed : Json) : Json :=
  match r with
  | .obj fs => .obj (fs ++ [("analyzedImages", analyzed)])
  | _ => .obj [("analyzedImages", analyzed)]

/-- `attachment?.url?.match(/\.(jpg|jpeg|png|gif|webp)$/i)` as a Boolean. -/
def hasImageExt (url : Chars) : Bool :=
  ["jpg", "jpeg", "png", "gif", "webp"].any
    (fun e => (('.' :: e.data)).isSuffixOf (url.map Char.toLower))

def attachmentIsImage (a : AttachmentRec) : Bool :=
  match a.url with
  | some u => hasImageExt u.data
  | none => false

/-- The flattened `get_issue` payload (`src/index.ts` lines 838-958),
with fields in source order.  The embedded-image extraction duplicates
the `extractAndAnalyzeImages` pipeline inline in the source; attachments
are filtered to image-extension urls before being analyzed. -/
def issueDetailsJson (analyze : Chars → String) (issue : IssueRec) : Json :=
  Json.obj
    [("id", .str issue.id),
     ("identifier", .str issue.identifier),
     ("title", .str issue.title),
     ("description", optStrJson issue.description),
     ("priority", issue.priority),
     ("priorityLabel", issue.priorityLabel),
     ("status", match issue.state with | some s => .str s.name | none => .str "Unknown"),
     ("url", .str issue.url),
     ("createdAt", issue.createdAt),
     ("updatedAt", issue.updatedAt),
     ("startedAt", issue.startedAt),
     ("completedAt", issue.completedAt),
     ("canceledAt", issue.canceledAt),
     ("dueDate", issue.dueDate),
     ("assignee", match issue.assignee with
        | some a => Json.obj [("id", .str a.id), ("name", .str a.name), ("email", a.email)]
        | none => .null),
     ("creator", match issue.creator with
        | some c => Json.obj [("id", .str c.id), ("name", .str c.name), ("email", c.email)]
        | none => .null),
     ("team", match issue.team with
        | some t => Json.obj [("id", t.id), ("name", t.name), ("key", t.key)]
        | none => .null),
     ("project", match issue.project with
        | some p => Json.obj [("id", p.id), ("name", p.name), ("state", p.state)]
        | none => .null),
     ("parent", match issue.parent with
        | some p => Json.obj [("id", p.id), ("title", p.title), ("identifier", p.identifier)]
        | none => .null),
     ("cycle", match issue.cycle with
        | some c => Json.obj [("id", c.id), ("name", c.name), ("number", c.number)]
        | none => .null),
     ("labels", Json.arr (issue.labels.map
        (fun l => Json.obj [("id", l.id), ("name", l.name), ("color", l.color)]))),
     ("comments", Json.arr (issue.comments.map
        (fun c => Json.obj [("id", c.id), ("body", c.body), ("createdAt", c.createdAt)]))),
     ("embeddedImages", imagePairsOfOpt analyze issue.description),
     ("attachments", Json.arr ((issue.attachments.filter attachmentIsImage).map
        (fun a => Json.obj
          [("id", a.id), ("title", a.title), ("url", optStrJson a.url),
           ("source", a.source), ("metadata", a.metadata),
           ("analysis", .str (analyze ((a.url.getD "").data)))]))),
     ("estimate", issue.estimate),
     ("customerTicketCount", issue.customerTicketCount),
     ("previousIdentifiers", issue.previousIdentifiers),
     ("branchName", optStrJson issue.branchName),
     ("archivedAt", issue.archivedAt),
     ("autoArchivedAt", issue.autoArchivedAt),
     ("autoClosedAt", issue.autoClosedAt),
     ("trashed", issue.trashed)]

/-- The body of the `CallToolRequestSchema` handler's `try` block
(`src/index.ts` lines 458-1011): the switch over the tool name.  The
result is the payload that would be `JSON.stringify`-ed on success, or
the thrown error's message; alongside it, the ordered trace of remote
calls made before returning or throwing.  The unknown-tool default
throws an `McpError` (the external SDK formats its message; only the
descriptive part is modelled). -/
def handleTool (env : Env) (req : ToolRequest) : Except String Json × List RemoteCall :=
  let args := req.arguments
  if req.name = "create_issue" then
    if !truthyS args.title || !truthyS args.teamId then
      (.error "Title and teamId are required", [])
    else
      let tr := [RemoteCall.linearCreateIssue args.title args.description args.teamId
        args.assigneeId args.priority args.labels]
      match env.linearCreateIssue args.title args.description args.teamId
          args.assigneeId args.priority args.labels with
      | .ok issue => (.ok issue, tr)
      | .error m => (.error m, tr)
  else if req.name = "list_issues" then
    let filter := listIssuesFilter args
    let first := args.first.getD 50
    let tr := [RemoteCall.linearIssuesQuery first filter]
    match env.linearIssues first filter with
    | .ok nodes => (.ok (Json.arr (nodes.map formatListIssue)), tr)
    | .error m => (.error m, tr)
  else if req.name = "update_issue" then
    if !truthyS args.issueId then
      (.error "Issue ID is required", [])
    else
      let id := args.issueId.getD ""
      match env.linearIssue id with
      | .error m => (.error m, [.linearIssueLookup id])
      | .ok none => (.error ("Issue " ++ id ++ " not found"), [.linearIssueLookup id])
      | .ok (some _issue) =>
        let p : UpdatePayload :=
          ⟨args.title, args.description, args.status, args.assigneeId, args.priority⟩
        let tr := [RemoteCall.linearIssueLookup id, .linearIssueUpdate id p]
        match env.linearUpdateIssue id p with
        | .ok r => (.ok r, tr)
        | .error m => (.error m, tr)
  else if req.name = "list_teams" then
    match env.linearTeams with
    | .ok ts => (.ok (Json.arr (ts.map formatTeam)), [.linearTeamsQuery])
    | .error m => (.error m, [.linearTeamsQuery])
  else if req.name = "search_issues" then
    if !truthyS args.query then
      (.error "Search query is required", [])
    else
      let q := args.query.getD ""
      let first := args.first.getD 50
      let tr := [RemoteCall.linearSearchQuery q first]
      match env.linearSearchIssues q first with
      | .ok nodes => (.ok (Json.arr (nodes.map formatSearchResult)), tr)
      | .error m => (.error m, tr)
  else if req.name = "github_create_branch" then
    let tr := [RemoteCall.ghCreateBranch args.owner args.repo args.branch args.fromBranch]
    match env.ghCreateBranch args.owner args.repo args.branch args.fromBranch with
    | .ok r => (.ok r, tr)
    | .error m => (.error m, tr)
  else if req.name = "github_update_pr" then
    let analyzed := if truthyS args.body
      then imagePairsOfOpt env.analyzeImage args.body else Json.arr []
    let tr := [RemoteCall.ghUpdatePullRequest args.owner args.repo args.pullNumber
      args.title args.body]
    match env.ghUpdatePullRequest args.owner args.repo args.pullNumber
        args.title args.body with
    | .ok r => (.ok (spreadJsonAnalyzed r analyzed), tr)
    | .error m => (.error m, tr)
  else if req.name = "github_create_pr" then
    let analyzed := imagePairsOfOpt env.analyzeImage args.body
    let tr := [RemoteCall.ghCreatePullRequest args.owner args.repo args.title
      args.body args.head args.base]
    match env.ghCreatePullRequest args.owner args.repo args.title
        args.body args.head args.base with
    | .ok pr => (.ok (spreadAnalyzed pr.raw analyzed), tr)
    | .error m => (.error m, tr)
  else if req.name = "github_get_pr" then
    let tr := [RemoteCall.ghGetPullRequest args.owner args.repo args.pullNumber]
    match env.ghGetPullRequest args.owner args.repo args.pullNumber with
    | .ok pr =>
      let analyzed := imagePairsOfOpt env.analyzeImage pr.body
      (.ok (spreadAnalyzed pr.raw analyzed), tr)
    | .error m => (.error m, tr)
  else if req.name = "github_link_pr_to_linear" then
    let tr := [RemoteCall.ghLinkPullRequestToLinear args.owner args.repo
      args.pullNumber args.issueId]
    match env.ghLinkPullRequestToLinear args.owner args.repo
        args.pullNumber args.issueId with
    | .ok r => (.ok r, tr)
    | .error m => (.error m, tr)
  else if req.name = "create_feature_pr" then
    if !truthyS args.issueId || !truthyS args.owner || !truthyS args.repo then
      (.error "issueId, owner, and repo are required", [])
    else
      let id := args.issueId.getD ""
      match env.linearIssue id with
      | .error m => (.error m, [.linearIssueLookup id])
      | .ok none => (.error ("Issue " ++ id ++ " not found"), [.linearIssueLookup id])
      | .ok (some issue) =>
        if !truthyS issue.branchName then
          (.error ("Branch name not found for issue " ++ id), [.linearIssueLookup id])
        else
          let bn := issue.branchName.getD ""
          let tr1 := [RemoteCall.linearIssueLookup id,
            .ghCreateBranch args.owner args.repo (some bn) (some (orDev args.base))]
          match env.ghCreateBranch args.owner args.repo (some bn)
              (some (orDev args.base)) with
          | .error m => (.error m, tr1)
          | .ok _ =>
            let analyzed := imagePairsOfOpt env.analyzeImage (some (issue.description.getD ""))
            let title := "[" ++ id ++ "] " ++ issue.title
            let body := "Fixes " ++ issue.url ++ "\n\n" ++ issue.description.getD ""
            let tr2 := tr1 ++ [RemoteCall.ghCreatePullRequest args.owner args.repo
              (some title) (some body) (some bn) (some (orDev args.base))]
            match env.ghCreatePullRequest args.owner args.repo
                (some title) (some body) (some bn) (some (orDev args.base)) with
            | .error m => (.error m, tr2)
            | .ok pr =>
              let tr3 := tr2 ++ [RemoteCall.ghLinkPullRequestToLinear args.owner
                args.repo (some pr.number) (some id)]
              match env.ghLinkPullRequestToLinear args.owner args.repo
                  (some pr.number) (some id) with
              | .error m => (.error m, tr3)
              | .ok _ => (.ok (spreadAnalyzed pr.raw analyzed), tr3)
  else if req.name = "get_issue" then
    if !truthyS args.issueId then
      (.error "Issue ID is required", [])
    else
      let id := args.issueId.getD ""
      match env.linearIssue id with
      | .error m => (.error m, [.linearIssueLookup id])
      | .ok none => (.error ("Issue " ++ id ++ " not found"), [.linearIssueLookup id])
      | .ok (some issue) =>
        (.ok (issueDetailsJson env.analyzeImage issue), [.linearIssueLookup id])
  else if req.name = "list_projects" then
    let filter := listProjectsFilter args
    let first := args.first.getD 50
    let tr := [RemoteCall.linearProjectsQuery first filter]
    match env.linearProjects first filter with
    | .ok nodes => (.ok (Json.arr (nodes.map formatProject)), tr)
    | .error m => (.error m, tr)
  else
    (.error ("Unknown tool: " ++ req.name), [])

/-- One part of the response envelope. -/
structure ContentPart where
  type : String
  text : String
deriving DecidableEq

/-- The uniform response envelope (`isError` is absent, hence falsy, on
success). -/
structure ToolResult where
  content : List ContentPart
  isError : Bool
deriving DecidableEq

/-- The full `CallToolRequestSchema` handler: the `try` body above plus
the `catch` block (`src/index.ts` lines 1012-1023) that wraps a thrown
error into the error envelope. -/
def dispatchTool (env : Env) (req : ToolRequest) : ToolResult × List RemoteCall :=
  match handleTool env req with
  | (.ok payload, tr) =>
    ({ content := [{ type := "text", text := env.stringify payload }], isError := false }, tr)
  | (.error m, tr) =>
    ({ content := [{ type := "text", text := "Linear API error: " ++ m }], isError := true }, tr)

/-! ## The PR-template lookup (`src/utils/github.ts` lines 75-108) -/

/-- Outcome of one `octokit.repos.getContent` attempt: the call threw
(e.g. path not found), returned data without a `content` field, or
returned base64 `content`. -/
inductive ContentOutcome where
  | thrown (msg : String)
  | noContent
  | content (data : Chars)

/-- The candidate template paths, in the order the source tries them. -/
def templatePaths : List String :=
  [".github/pull_request_template.md",
   ".github/PULL_REQUEST_TEMPLATE.md",
   "docs/pull_request_template.md",
   "PULL_REQUEST_TEMPLATE.md"]

/-- The `for` loop of `getPRTemplate`: each thrown lookup or
content-less result moves on to the next candidate; the first `content`
is base64-decoded (`decode`, the external `Buffer` routine) and
returned; an exhausted list yields `null`. -/
def getPRTemplateAux (decode : Chars → Chars)
    (getContent : String → ContentOutcome) : List String → Option Chars
  | [] => none
  | p :: rest =>
    match getContent p with
    | .content d => some (decode d)
    | _ => getPRTemplateAux decode getContent rest

/-- `GitHubClient.getPRTemplate`: the loop over `templatePaths`; both the
per-path `try` and the surrounding `try` return `null` rather than
propagate, so the model is total with an `Option` result. -/
def getPRTemplate (decode : Chars → Chars)
    (getContent : String → ContentOutcome) : Option Chars :=
  getPRTemplateAux decode getContent templatePaths

/-- A concrete environment instance used to evaluate the dispatcher at
specific inputs. -/
def envEx : Env where
  stringify := fun _ => ""
  analyzeImage := fun _ => ""
  linearCreateIssue := fun _ _ _ _ _ _ => .error "network"
  linearIssues := fun _ _ => .ok []
  linearIssue := fun _ => .ok none
  linearUpdateIssue := fun _ _ => .ok .null
  linearTeams := .ok []
  linearSearchIssues := fun _ _ => .ok []
  linearProjects := fun _ _ => .ok []
  ghCreateBranch := fun _ _ _ _ => .ok .null
  ghUpdatePullRequest := fun _ _ _ _ _ => .ok .null
  ghCreatePullRequest := fun _ _ _ _ _ _ => .ok ⟨1, none, []⟩
  ghGetPullRequest := fun _ _ _ => .ok ⟨1, none, []⟩
  ghLinkPullRequestToLinear := fun _ _ _ _ => .ok .null

/-! ## Claims -/

/-- C2, counterexample: the claim asserts that linking twice yields a
body containing the marker `Fixes <issueId>` exactly once, for both
variants of `linkPullRequestToLinear`.  The second variant
(`src/utils/github.ts` lines 539-565) prepends the marker
unconditionally: starting from an empty body and issue id `ABC-1`, two
invocations produce a body containing `Fixes ABC-1` twice, not once. -/
theorem C2_counterexample_second_variant_links_twice :
    countSub (linkBodyV2 (some (linkBodyV2 none "ABC-1".data)) "ABC-1".data)
        "Fixes ABC-1".data = 2 ∧
    ¬ countSub (linkBodyV2 (some (linkBodyV2 none "ABC-1".data)) "ABC-1".data)
        "Fixes ABC-1".data = 1 := by
  decide

/-- C2, amended: the first variant of `linkPullRequestToLinear` appends
`\n\nFixes <issueId>` exactly when the body does not already contain the
issue id, and is idempotent — a second invocation with the same
arguments finds the id present and leaves the body unchanged; the second
variant unconditionally prepends `Fixes <issueId>\n\n` on every
invocation, so it is not idempotent. -/
theorem C2_link_pr_first_variant_idempotent :
    (∀ (b : Option Chars) (id : Chars),
      linkBodyV1 (linkBodyV1 b id) id = linkBodyV1 b id) ∧
    (∀ (b : Option Chars) (id : Chars), includesOpt b id = false →
      linkBodyV1 b id = some (b.getD [] ++ "\n\nFixes ".data ++ id)) ∧
    (∀ (b : Option Chars) (id : Chars), includesOpt b id = true →
      linkBodyV1 b id = b) ∧
    (∀ (b : Option Chars) (id : Chars),
      linkBodyV2 b id = "Fixes ".data ++ id ++ "\n\n".data ++ b.getD []) := by
  refine ⟨?_, linkBodyV1_of_not_includes, linkBodyV1_of_includes, fun b id => rfl⟩
  intro b id
  by_cases h : includesOpt b id
  · rw [linkBodyV1_of_includes b id h]
    exact linkBodyV1_of_includes b id h
  · rw [linkBodyV1_of_not_includes b id (by simpa using h)]
    exact linkBodyV1_of_includes _ _ (includesOpt_append_right b _ id)

/-- Witness for the amended C2 theorem at concrete inputs. -/
theorem C2_link_pr_first_variant_idempotent_witness :
    linkBodyV1 (linkBodyV1 (some "body".data) "ABC-1".data) "ABC-1".data
        = linkBodyV1 (some "body".data) "ABC-1".data ∧
    linkBodyV1 (some "body".data) "ABC-1".data
        = some ("body".data ++ "\n\nFixes ".data ++ "ABC-1".data) ∧
    linkBodyV1 (some "see ABC-1".data) "ABC-1".data = some "see ABC-1".data :=
  ⟨C2_link_pr_first_variant_idempotent.1 (some "body".data) "ABC-1".data,
   C2_link_pr_first_variant_idempotent.2.1 (some "body".data) "ABC-1".data (by decide),
   C2_link_pr_first_variant_idempotent.2.2.1 (some "see ABC-1".data) "ABC-1".data (by decide)⟩

/-- C8: `extractAndAnalyzeImages` returns one `{url, analysis}` pair per
markdown image reference matched by the global regex, in source order
(the result is exactly the match list mapped through the per-match url
extraction and the analysis step); concretely, a text with two
references yields exactly those two pairs in order and a text with no
reference yields the empty sequence. -/
theorem C8_one_pair_per_image_reference :
    (∀ (analyze : Chars → String) (text : Chars),
      (extractAndAnalyzeImages analyze text).length = (imageMatches text).length ∧
      extractAndAnalyzeImages analyze text
        = (imageMatches text).map (fun m => (urlOfMatch m, analyze (urlOfMatch m)))) ∧
    imageMatches "two ![a](http://x/1.png) and ![b](http://x/2.png) refs".data
      = ["![a](http://x/1.png)".data, "![b](http://x/2.png)".data] ∧
    extractAndAnalyzeImages (fun u => String.mk u)
        "two ![a](http://x/1.png) and ![b](http://x/2.png) refs".data
      = [("http://x/1.png".data, "http://x/1.png"),
         ("http://x/2.png".data, "http://x/2.png")] ∧
    imageMatches "no images here".data = [] ∧
    extractAndAnalyzeImages (fun u => String.mk u) "no images here".data = [] := by
  refine ⟨fun analyze text => ⟨?_, rfl⟩, by decide, by decide, by decide, by decide⟩
  simp [extractAndAnalyzeImages]

theorem getPRTemplateAux_none (decode : Chars → Chars)
    (gc : String → ContentOutcome) :
    ∀ ps : List String, (∀ p ∈ ps, ∀ d, gc p ≠ .content d) →
      getPRTemplateAux decode gc ps = none := by
  intro ps
  induction ps with
  | nil => intro _; rfl
  | cons p rest ih =>
    intro h
    rcases hp : gc p with m | _ | d
    · simp only [getPRTemplateAux, hp]
      exact ih (fun q hq => h q (List.mem_cons_of_mem p hq))
    · simp only [getPRTemplateAux, hp]
      exact ih (fun q hq => h q (List.mem_cons_of_mem p hq))
    · exact absurd hp (h p (List.mem_cons_self p rest) d)

theorem getPRTemplateAux_first (decode : Chars → Chars)
    (gc : String → ContentOutcome) :
    ∀ (l₁ : List String) (p : String) (l₂ : List String) (d : Chars),
      (∀ q ∈ l₁, ∀ d', gc q ≠ .content d') → gc p = .content d →
      getPRTemplateAux decode gc (l₁ ++ p :: l₂) = some (decode d) := by
  intro l₁
  induction l₁ with
  | nil =>
    intro p l₂ d _ hp
    unfold getPRTemplateAux
    simp [hp]
  | cons q rest ih =>
    intro p l₂ d h hp
    rcases hq : gc q with m | _ | d'
    · show getPRTemplateAux decode gc (q :: (rest ++ p :: l₂)) = some (decode d)
      simp only [getPRTemplateAux, hq]
      exact ih p l₂ d (fun q' hq' => h q' (List.mem_cons_of_mem q hq')) hp
    · show getPRTemplateAux decode gc (q :: (rest ++ p :: l₂)) = some (decode d)
      simp only [getPRTemplateAux, hq]
      exact ih p l₂ d (fun q' hq' => h q' (List.mem_cons_of_mem q hq')) hp
    · exact absurd hq (h q (List.mem_cons_self q rest) d')

/-- C9: `getPRTemplate` tries the four candidate template paths in their
fixed order; a lookup that throws or returns no `content` field just
moves on to the next candidate; when no candidate yields content the
result is `none`.  It never propagates an error: the embedding of both
`catch` blocks is total with an `Option` result, and the error outcome
`ContentOutcome.thrown` never escapes. -/
theorem C9_pr_template_lookup :
    ∀ (decode : Chars → Chars) (getContent : String → ContentOutcome),
      ((∀ p ∈ templatePaths, ∀ d, getContent p ≠ .content d) →
        getPRTemplate decode getContent = none) ∧
      (∀ (l₁ : List String) (p : String) (l₂ : List String) (d : Chars),
        templatePaths = l₁ ++ p :: l₂ →
        (∀ q ∈ l₁, ∀ d', getContent q ≠ .content d') →
        getContent p = .content d →
        getPRTemplate decode getContent = some (decode d)) := by
  intro decode gc
  constructor
  · exact getPRTemplateAux_none decode gc templatePaths
  · intro l₁ p l₂ d hsplit h hp
    unfold getPRTemplate
    rw [hsplit]
    exact getPRTemplateAux_first decode gc l₁ p l₂ d h hp

/-- Witness for C9: with every lookup throwing, the result is `none`;
with the third candidate holding content, that content is returned even
though the first two candidates throw. -/
theorem C9_pr_template_lookup_witness :
    getPRTemplate (fun d => d) (fun _ => ContentOutcome.thrown "Not Found") = none ∧
    getPRTemplate (fun d => d)
        (fun p => if p = "docs/pull_request_template.md"
                  then ContentOutcome.content "template".data
                  else ContentOutcome.thrown "Not Found")
      = some "template".data :=
  ⟨(C9_pr_template_lookup (fun d => d) (fun _ => ContentOutcome.thrown "Not Found")).1
      (by intro p _ d h; simp at h),
   (C9_pr_template_lookup (fun d => d) _).2
      [".github/pull_request_template.md", ".github/PULL_REQUEST_TEMPLATE.md"]
      "docs/pull_request_template.md" ["PULL_REQUEST_TEMPLATE.md"] "template".data
      rfl
      (by
        intro q hq d' h
        fin_cases hq <;> simp at h)
      (by rfl)⟩

/-- C10: in the flattened records of `list_issues` and `search_issues` a
state reference that resolves to nothing yields the string `"Unknown"`
in `status` and a missing assignee yields `"Unassigned"` in `assignee`;
in the `get_issue` payload a missing state yields `"Unknown"` in
`status`.  Whatever the references resolve to, those fields are always
present and always carry a string — never `null` and never omitted. -/
theorem C10_missing_reference_sentinels :
    ∀ (i : IssueNode) (analyze : Chars → String) (issue : IssueRec),
      jsonLookup (formatListIssue { i with state := none }) "status"
        = some (Json.str "Unknown") ∧
      jsonLookup (formatListIssue { i with assignee := none }) "assignee"
        = some (Json.str "Unassigned") ∧
      jsonLookup (formatSearchResult { i with state := none }) "status"
        = some (Json.str "Unknown") ∧
      jsonLookup (formatSearchResult { i with assignee := none }) "assignee"
        = some (Json.str "Unassigned") ∧
      jsonLookup (issueDetailsJson analyze { issue with state := none }) "status"
        = some (Json.str "Unknown") ∧
      (∃ s, jsonLookup (formatListIssue i) "status" = some (Json.str s)) ∧
      (∃ s, jsonLookup (formatListIssue i) "assignee" = some (Json.str s)) ∧
      (∃ s, jsonLookup (formatSearchResult i) "status" = some (Json.str s)) ∧
      (∃ s, jsonLookup (formatSearchResult i) "assignee" = some (Json.str s)) ∧
      (∃ s, jsonLookup (issueDetailsJson analyze issue) "status" = some (Json.str s)) := by
  intro i analyze issue
  refine ⟨rfl, rfl, rfl, rfl, rfl, ?_, ?_, ?_, ?_, ?_⟩
  · rcases hs : i.state with _ | st
    · exact ⟨"Unknown", by simp [formatListIssue, jsonLookup, jsonLookup.lookupField, hs]⟩
    · exact ⟨st.name, by simp [formatListIssue, jsonLookup, jsonLookup.lookupField, hs]⟩
  · rcases ha : i.assignee with _ | a
    · exact ⟨"Unassigned", by simp [formatListIssue, jsonLookup, jsonLookup.lookupField, ha]⟩
    · exact ⟨a.name, by simp [formatListIssue, jsonLookup, jsonLookup.lookupField, ha]⟩
  · rcases hs : i.state with _ | st
    · exact ⟨"Unknown", by simp [formatSearchResult, jsonLookup, jsonLookup.lookupField, hs]⟩
    · exact ⟨st.name, by simp [formatSearchResult, jsonLookup, jsonLookup.lookupField, hs]⟩
  · rcases ha : i.assignee with _ | a
    · exact ⟨"Unassigned", by simp [formatSearchResult, jsonLookup, jsonLookup.lookupField, ha]⟩
    · exact ⟨a.name, by simp [formatSearchResult, jsonLookup, jsonLookup.lookupField, ha]⟩
  · rcases hs : issue.state with _ | st
    · exact ⟨"Unknown", by simp [issueDetailsJson, jsonLookup, jsonLookup.lookupField, hs]⟩
    · exact ⟨st.name, by simp [issueDetailsJson, jsonLookup, jsonLookup.lookupField, hs]⟩

/-- C5: a `create_issue` invocation whose `title` or `teamId` argument
is missing throws the validation error before any remote call, so the
dispatcher returns an error envelope and the remote-call trace is empty
(`linearClient.createIssue` is never invoked). -/
theorem C5_create_issue_missing_required :
    ∀ (env : Env) (args : Args), args.title = none ∨ args.teamId = none →
      handleTool env { name := "create_issue", arguments := args }
        = (.error "Title and teamId are required", []) ∧
      (dispatchTool env { name := "create_issue", arguments := args }).1.isError = true := by
  intro env args h
  have hmain : handleTool env { name := "create_issue", arguments := args }
      = (.error "Title and teamId are required", []) := by
    rcases h with h | h <;> simp [handleTool, h, truthyS]
  exact ⟨hmain, by simp [dispatchTool, hmain]⟩

/-- Witness for C5 at the empty argument object. -/
theorem C5_create_issue_missing_required_witness :
    handleTool envEx { name := "create_issue", arguments := {} }
      = (.error "Title and teamId are required", []) ∧
    (dispatchTool envEx { name := "create_issue", arguments := {} }).1.isError = true :=
  C5_create_issue_missing_required envEx {} (Or.inl rfl)

/-- C4: whenever the tool handler throws with message `m` — missing
required argument, remote not-found, remote rejection, or the unknown
tool default — the dispatcher's `catch` block returns the uniform
envelope `{content: [{type: "text", text: "Linear API error: " ++ m}],
isError: true}`; the error never escapes as an exception (`dispatchTool`
is a total function) and the handler is invoked exactly once, with its
trace passed through unchanged (no retry). -/
theorem C4_error_envelope :
    ∀ (env : Env) (req : ToolRequest) (m : String),
      (handleTool env req).1 = Except.error m →
      dispatchTool env req
        = ({ content := [{ type := "text", text := "Linear API error: " ++ m }],
             isError := true },
           (handleTool env req).2) := by
  intro env req m h
  rcases hh : handleTool env req with ⟨res, tr⟩
  rw [hh] at h
  simp at h
  subst h
  simp [dispatchTool, hh]

/-- Witness for C4: the missing-argument throw of `create_issue` reaches
the caller as the error envelope. -/
theorem C4_error_envelope_witness :
    dispatchTool envEx { name := "create_issue", arguments := {} }
      = ({ content := [{ type := "text", text := "Linear API error: Title and teamId are required" }], isError := true }, []) :=
  C4_error_envelope envEx { name := "create_issue", arguments := {} }
    "Title and teamId are required" rfl

/-- C3: when the looked-up issue of `create_feature_pr` has no
precomputed `branchName`, the handler throws
`Branch name not found for issue <id>` right after the lookup: the
dispatcher returns an error envelope and the remote-call trace contains
only the issue lookup — neither `createBranch` nor `createPullRequest`
nor `linkPullRequestToLinear` is called. -/
theorem C3_create_feature_pr_no_branch_name :
    ∀ (env : Env) (args : Args) (issue : IssueRec) (id : String),
      args.issueId = some id → id ≠ "" →
      truthyS args.owner = true → truthyS args.repo = true →
      env.linearIssue id = .ok (some issue) → issue.branchName = none →
      handleTool env { name := "create_feature_pr", arguments := args }
        = (.error ("Branch name not found for issue " ++ id),
           [RemoteCall.linearIssueLookup id]) ∧
      (dispatchTool env { name := "create_feature_pr", arguments := args }).1.isError
        = true ∧
      ((handleTool env { name := "create_feature_pr", arguments := args }).2.all
        (fun c => !isFeaturePrGithubCall c)) = true := by
  intro env args issue id hid hne hown hrepo hlu hbn
  have hti : truthyS args.issueId = true := by
    rw [hid]; simp [truthyS, hne]
  have hmain : handleTool env { name := "create_feature_pr", arguments := args }
      = (.error ("Branch name not found for issue " ++ id),
         [RemoteCall.linearIssueLookup id]) := by
    simp [handleTool, hti, hown, hrepo, hid, hlu, hbn, truthyS_none, truthyS_some, hne]
  refine ⟨hmain, by simp [dispatchTool, hmain], by simp [hmain, isFeaturePrGithubCall]⟩

/-- A concrete issue whose `branchName` is absent. -/
def issueNoBranchEx : IssueRec where
  id := "uuid-1"
  identifier := "ARC-1"
  title := "t"
  description := none
  priority := .null
  priorityLabel := .null
  url := "https://linear.app/i/ARC-1"
  createdAt := .null
  updatedAt := .null
  startedAt := .null
  completedAt := .null
  canceledAt := .null
  dueDate := .null
  estimate := .null
  customerTicketCount := .null
  previousIdentifiers := .null
  branchName := none
  archivedAt := .null
  autoArchivedAt := .null
  autoClosedAt := .null
  trashed := .null
  state := none
  assignee := none
  creator := none
  team := none
  project := none
  parent := none
  cycle := none
  labels := []
  comments := []
  attachments := []

/-- An environment whose issue lookup finds `issueNoBranchEx`. -/
def envNoBranch : Env :=
  { envEx with linearIssue := fun _ => .ok (some issueNoBranchEx) }

/-- The concrete `create_feature_pr` arguments used by the C3 witness. -/
def featurePrArgsEx : Args :=
  { issueId := some "ARC-1", owner := some "o", repo := some "r" }

/-- Witness for C3 at a concrete request. -/
theorem C3_create_feature_pr_no_branch_name_witness :
    handleTool envNoBranch { name := "create_feature_pr", arguments := featurePrArgsEx }
      = (.error ("Branch name not found for issue " ++ "ARC-1"),
         [RemoteCall.linearIssueLookup "ARC-1"]) ∧
    (dispatchTool envNoBranch { name := "create_feature_pr", arguments := featurePrArgsEx }).1.isError = true ∧
    ((handleTool envNoBranch { name := "create_feature_pr", arguments := featurePrArgsEx }).2.all
      (fun c => !isFeaturePrGithubCall c)) = true :=
  C3_create_feature_pr_no_branch_name envNoBranch featurePrArgsEx
    issueNoBranchEx "ARC-1" rfl (by decide) rfl rfl rfl rfl

/-- C6: every `list_issues` invocation passes `listIssuesFilter args` to
the remote `issues` query; a supplied (non-empty — the guard is
JavaScript truthiness, so the empty string behaves like an omission)
`teamId` contributes exactly the key `team: {id: {eq: <teamId>}}`, a
supplied `status` contributes exactly `state: {name: {eq: <status>}}`,
and an omitted filter argument contributes no key at all. -/
theorem C6_list_issues_filter_translation :
    ∀ (env : Env) (args : Args),
      (handleTool env { name := "list_issues", arguments := args }).2
        = [RemoteCall.linearIssuesQuery (args.first.getD 50) (listIssuesFilter args)] ∧
      (∀ t, args.teamId = some t → t ≠ "" →
        jsonLookup (listIssuesFilter args) "team"
          = some (Json.obj [("id", Json.obj [("eq", Json.str t)])])) ∧
      (args.teamId = none → jsonLookup (listIssuesFilter args) "team" = none) ∧
      (∀ s, args.status = some s → s ≠ "" →
        jsonLookup (listIssuesFilter args) "state"
          = some (Json.obj [("name", Json.obj [("eq", Json.str s)])])) ∧
      (args.status = none → jsonLookup (listIssuesFilter args) "state" = none) := by
  intro env args
  refine ⟨?_, ?_, ?_, ?_, ?_⟩
  · rcases he : env.linearIssues (args.first.getD 50) (listIssuesFilter args) with m | r <;>
      simp [handleTool, he]
  · intro t ht hne
    simp [listIssuesFilter, ht, truthyS_some, hne, jsonLookup, jsonLookup.lookupField]
  · intro ht
    simp only [listIssuesFilter, ht, truthyS_none]
    by_cases ha : truthyS args.assigneeId <;>
      by_cases hs : truthyS args.status <;>
        simp [ha, hs, jsonLookup, jsonLookup.lookupField]
  · intro s hs hne
    simp only [listIssuesFilter, hs, truthyS_some]
    by_cases ht : truthyS args.teamId <;>
      by_cases ha : truthyS args.assigneeId <;>
        simp [ht, ha, hne, jsonLookup, jsonLookup.lookupField]
  · intro hs
    simp only [listIssuesFilter, hs, truthyS_none]
    by_cases ht : truthyS args.teamId <;>
      by_cases ha : truthyS args.assigneeId <;>
        simp [ht, ha, jsonLookup, jsonLookup.lookupField]

/-- The concrete `list_issues` arguments used by the C6 witness. -/
def listArgsEx : Args := { teamId := some "team1", status := some "In Progress" }

/-- Witness for C6 at concrete filter arguments (and, for the omitted
case, at the empty argument object). -/
theorem C6_list_issues_filter_translation_witness :
    (handleTool envEx { name := "list_issues", arguments := listArgsEx }).2
      = [RemoteCall.linearIssuesQuery 50 (listIssuesFilter listArgsEx)] ∧
    jsonLookup (listIssuesFilter listArgsEx) "team"
      = some (Json.obj [("id", Json.obj [("eq", Json.str "team1")])]) ∧
    jsonLookup (listIssuesFilter listArgsEx) "state"
      = some (Json.obj [("name", Json.obj [("eq", Json.str "In Progress")])]) ∧
    jsonLookup (listIssuesFilter {}) "team" = none ∧
    jsonLookup (listIssuesFilter {}) "state" = none :=
  ⟨(C6_list_issues_filter_translation envEx listArgsEx).1,
   (C6_list_issues_filter_translation envEx listArgsEx).2.1 "team1" rfl (by decide),
   (C6_list_issues_filter_translation envEx listArgsEx).2.2.2.1 "In Progress" rfl (by decide),
   (C6_list_issues_filter_translation envEx {}).2.2.1 rfl,
   (C6_list_issues_filter_translation envEx {}).2.2.2.2 rfl⟩

/-- C7: when the caller omits the `first` argument, the page size passed
to the remote call is 50, for each of `list_issues`, `list_projects` and
`search_issues` (the latter provided a query is supplied, since the
query is validated before the remote call). -/
theorem C7_default_page_size_50 :
    ∀ (env : Env) (args : Args), args.first = none →
      (handleTool env { name := "list_issues", arguments := args }).2
        = [RemoteCall.linearIssuesQuery 50 (listIssuesFilter args)] ∧
      (handleTool env { name := "list_projects", arguments := args }).2
        = [RemoteCall.linearProjectsQuery 50 (listProjectsFilter args)] ∧
      (∀ q, args.query = some q → q ≠ "" →
        (handleTool env { name := "search_issues", arguments := args }).2
          = [RemoteCall.linearSearchQuery q 50]) := by
  intro env args hf
  refine ⟨?_, ?_, ?_⟩
  · rcases he : env.linearIssues 50 (listIssuesFilter args) with m | r <;>
      simp [handleTool, hf, he]
  · rcases he : env.linearProjects 50 (listProjectsFilter args) with m | r <;>
      simp [handleTool, hf, he]
  · intro q hq hne
    rcases he : env.linearSearchIssues q 50 with m | r <;>
      simp [handleTool, hf, hq, truthyS_some, hne, he]

/-- The concrete `search_issues` arguments used by the C7 witness. -/
def searchArgsEx : Args := { query := some "bug" }

/-- Witness for C7: with `first` omitted, all three list operations pass
a page size of 50. -/
theorem C7_default_page_size_50_witness :
    (handleTool envEx { name := "list_issues", arguments := searchArgsEx }).2
      = [RemoteCall.linearIssuesQuery 50 (Json.obj [])] ∧
    (handleTool envEx { name := "list_projects", arguments := searchArgsEx }).2
      = [RemoteCall.linearProjectsQuery 50 (Json.obj [])] ∧
    (handleTool envEx { name := "search_issues", arguments := searchArgsEx }).2
      = [RemoteCall.linearSearchQuery "bug" 50] :=
  ⟨(C7_default_page_size_50 envEx searchArgsEx rfl).1,
   (C7_default_page_size_50 envEx searchArgsEx rfl).2.1,
   (C7_default_page_size_50 envEx searchArgsEx rfl).2.2 "bug" rfl (by decide)⟩

/-- C1: the claim (and the repository's own test suite, which documents
`team` as "the incorrect structure that caused the error" and asserts
`'Field "team" is not defined by type "ProjectFilter"'`) requires the
`list_projects` team filter to be `{accessibleTeams: {some: {id: {eq:
<teamId>}}}}`.  The handler (`src/index.ts` line 973) instead builds the
issue-filter shape `{team: {id: {eq: <teamId>}}}` and passes it to the
remote projects query: evaluating the code at `teamId = "team1"` shows
the filter carries the `team` key and no `accessibleTeams` key. -/
theorem C1_list_projects_filter_uses_invalid_team_key :
    listProjectsFilter { teamId := some "team1" }
      = Json.obj [("team", Json.obj [("id", Json.obj [("eq", Json.str "team1")])])] ∧
    jsonLookup (listProjectsFilter { teamId := some "team1" }) "accessibleTeams" = none ∧
    (handleTool envEx { name := "list_projects", arguments := { teamId := some "team1" } }).2
      = [RemoteCall.linearProjectsQuery 50
          (Json.obj [("team", Json.obj [("id", Json.obj [("eq", Json.str "team1")])])])] :=
  ⟨rfl, rfl, rfl⟩
